import Mathlib

/-!
# XDP port filter: embedding and verification

Shallow embedding of `src/packet_filter.bpf.c` (the per-packet classifier
`xdp_packet_filter`) and of the argument handling and start-up sequence of
`src/packet_filter.c` (`main`), followed by the theorems settling the claims
C1..C10 of the specification.

Conventions of the embedding

* A frame is the list of bytes between `ctx->data` and `ctx->data_end`; a
  pointer into the frame is its byte offset from `data`, so `data = 0` and
  `data_end = frame.length`.
* The two BPF array maps have one slot each.  A slot is an `Option`: `none`
  is the case in which `bpf_map_lookup_elem` returns `NULL`.
* `__u64` counters are natural numbers and `__sync_fetch_and_add` reduces
  modulo `2^64`.
* Every load from the frame goes through `load_u8` / `load_be16`, which index
  the list with `[i]?`, fail on an out-of-range index and record the access.
-/

namespace PacketFilter

/-! ## Kernel-side data model (`packet_filter.bpf.c`) -/

/-- One octet of a frame. -/
abbrev u8 := Fin 256

/-- Value type of `port_map` (`__u16`). -/
abbrev u16 := Fin 65536

/-- The XDP verdicts of `<linux/bpf.h>` (`enum xdp_action`). -/
inductive xdp_action where
  | XDP_ABORTED
  | XDP_DROP
  | XDP_PASS
  | XDP_TX
  | XDP_REDIRECT
  deriving DecidableEq, Repr

open xdp_action

/-- The record `struct packet_stats`; every field is a `__u64`. -/
structure packet_stats where
  total_packets : Nat
  tcp_packets : Nat
  dropped_packets : Nat
  passed_packets : Nat
  deriving DecidableEq, Repr

/-- Ethertype of IPv4, `ETH_P_IP` of `<linux/if_ether.h>`. -/
def ETH_P_IP : Nat := 0x0800

/-- IP protocol number of TCP, `IPPROTO_TCP` of `<linux/in.h>`. -/
def IPPROTO_TCP : Nat := 6

/-- The value `sizeof(struct ethhdr)`: two 6-byte addresses and `h_proto`. -/
def sizeof_ethhdr : Nat := 14

/-- The value `sizeof(struct iphdr)`: the option-less IPv4 header. -/
def sizeof_iphdr : Nat := 20

/-- The value `sizeof(struct tcphdr)`: the option-less TCP header. -/
def sizeof_tcphdr : Nat := 20

/-- Offset of `h_proto` in `struct ethhdr`. -/
def ethhdr_h_proto : Nat := 12

/-- Offset of the octet holding the bit-fields `ihl` and `version` in `struct iphdr`. -/
def iphdr_ihl : Nat := 0

/-- Offset of `protocol` in `struct iphdr`. -/
def iphdr_protocol : Nat := 9

/-- Offset of `source` in `struct tcphdr`. -/
def tcphdr_source : Nat := 0

/-- Offset of `dest` in `struct tcphdr`. -/
def tcphdr_dest : Nat := 2

/-- A `__be16` as it lies in memory: first octet, second octet. -/
abbrev be16 := Nat × Nat

/-- Host value of a network-order 16-bit field (`bpf_ntohs`). -/
def bpf_ntohs (x : be16) : Nat := 256 * x.1 + x.2

/-- Network-order image of a 16-bit host value (`bpf_htons`). -/
def bpf_htons (v : Nat) : be16 := (v / 256 % 256, v % 256)

/-- New value stored by `__sync_fetch_and_add(&x, v)` on a `__u64`. -/
def sync_fetch_and_add (x v : Nat) : Nat := (x + v) % 2 ^ 64

/-- Everything the program can touch besides the frame: the single slot of each
map, and the log of the loads made from the frame as (offset, size) pairs in
program order. -/
structure State where
  port_map : Option u16
  stats_map : Option packet_stats
  loads : List (Nat × Nat)
  deriving DecidableEq, Repr

/-- Programs over `State`; `none` is a load outside the frame. -/
abbrev XDP := StateT State Option

/-- Record a load of `size` bytes at `off`. -/
def record_load (off size : Nat) : XDP Unit :=
  modify fun st => { st with loads := st.loads ++ [(off, size)] }

/-- Load one octet of the frame. -/
def load_u8 (frame : List u8) (off : Nat) : XDP Nat := do
  record_load off 1
  match frame[off]? with
  | some b => pure b.val
  | none => failure

/-- Load a two-octet network-order field of the frame. -/
def load_be16 (frame : List u8) (off : Nat) : XDP be16 := do
  record_load off 2
  match frame[off]?, frame[off + 1]? with
  | some a, some b => pure (a.val, b.val)
  | _, _ => failure

/-- The call `bpf_map_lookup_elem(&stats_map, &stats_key)`: whether the pointer is non-null. -/
def lookup_stats : XDP Bool := do
  let st ← get
  pure st.stats_map.isSome

/-- The call `bpf_map_lookup_elem(&port_map, &port_key)`: the value behind the pointer, if any. -/
def lookup_port : XDP (Option u16) := do
  let st ← get
  pure st.port_map

/-- Apply `f` to the stats record the looked-up pointer refers to. -/
def update_stats (f : packet_stats → packet_stats) : XDP Unit :=
  modify fun st => { st with stats_map := st.stats_map.map f }

/-- The statement `__sync_fetch_and_add(&stats->total_packets, 1)`. -/
def add_total_packets : XDP Unit :=
  update_stats fun s => { s with total_packets := sync_fetch_and_add s.total_packets 1 }

/-- The statement `__sync_fetch_and_add(&stats->tcp_packets, 1)`. -/
def add_tcp_packets : XDP Unit :=
  update_stats fun s => { s with tcp_packets := sync_fetch_and_add s.tcp_packets 1 }

/-- The statement `__sync_fetch_and_add(&stats->dropped_packets, 1)`. -/
def add_dropped_packets : XDP Unit :=
  update_stats fun s => { s with dropped_packets := sync_fetch_and_add s.dropped_packets 1 }

/-- The statement `__sync_fetch_and_add(&stats->passed_packets, 1)`. -/
def add_passed_packets : XDP Unit :=
  update_stats fun s => { s with passed_packets := sync_fetch_and_add s.passed_packets 1 }

/-- The program `xdp_packet_filter` (`packet_filter.bpf.c`, lines 36-123).
The two `bpf_printk` trace lines have no effect on maps, frame or verdict and
are left out. -/
def xdp_packet_filter (frame : List u8) : XDP xdp_action := do
  let data_end := frame.length
  let data := 0
  -- Initialize statistics
  let stats ← lookup_stats
  if !stats then
    return XDP_ABORTED
  -- Increment total packet count
  add_total_packets
  -- Parse Ethernet header
  let eth := data
  if eth + sizeof_ethhdr > data_end then
    return XDP_PASS
  -- Check if it is an IPv4 packet
  let h_proto ← load_be16 frame (eth + ethhdr_h_proto)
  if h_proto != bpf_htons ETH_P_IP then
    add_passed_packets
    return XDP_PASS
  -- Parse IP header
  let ip := eth + sizeof_ethhdr
  if ip + sizeof_iphdr > data_end then
    return XDP_PASS
  -- Check if it is a TCP packet
  let protocol ← load_u8 frame (ip + iphdr_protocol)
  if protocol != IPPROTO_TCP then
    add_passed_packets
    return XDP_PASS
  -- Increment TCP packet count
  add_tcp_packets
  -- Parse TCP header
  let ihl := (← load_u8 frame (ip + iphdr_ihl)) % 16
  let tcp := ip + ihl * 4
  if tcp + sizeof_tcphdr > data_end then
    return XDP_PASS
  -- Get the configured port from the map
  let target_port ← lookup_port
  match target_port with
  | none =>
    -- If no port is configured, pass all packets
    add_passed_packets
    return XDP_PASS
  | some target =>
    -- Check if the destination port matches our target port
    let dest_port := bpf_ntohs (← load_be16 frame (tcp + tcphdr_dest))
    if dest_port == target.val then
      add_dropped_packets
      return XDP_DROP
    -- Check if the source port matches our target port
    let src_port := bpf_ntohs (← load_be16 frame (tcp + tcphdr_source))
    if src_port == target.val then
      add_dropped_packets
      return XDP_DROP
    -- Pass the packet if it does not match our filter
    add_passed_packets
    return XDP_PASS

/-- One invocation of the hook on `frame` with the given map contents and an
empty load log. -/
def invoke (frame : List u8) (port : Option u16) (stats : Option packet_stats) :
    Option (xdp_action × State) :=
  (xdp_packet_filter frame).run { port_map := port, stats_map := stats, loads := [] }

/-- Verdict of one invocation; `none` only if a load left the frame. -/
def verdict (frame : List u8) (port : Option u16) (stats : Option packet_stats) :
    Option xdp_action :=
  (invoke frame port stats).map fun r => r.1

/-- Content of the stats slot after one invocation. -/
def stats_after (frame : List u8) (port : Option u16) (stats : Option packet_stats) :
    Option packet_stats :=
  (invoke frame port stats).bind fun r => r.2.stats_map

/-- Loads made from the frame by one invocation. -/
def loads_of (frame : List u8) (port : Option u16) (stats : Option packet_stats) :
    List (Nat × Nat) :=
  match invoke frame port stats with
  | some r => r.2.loads
  | none => []

/-- Stats record after classifying one frame with the stats record present. -/
def classify_one (s : packet_stats) (x : List u8 × Option u16) : packet_stats :=
  (stats_after x.1 x.2 (some s)).getD s

/-- Stats record after classifying the frames of `xs` one after the other, each
with the port configuration in force when it arrives. -/
def classify_all (xs : List (List u8 × Option u16)) (s : packet_stats) : packet_stats :=
  xs.foldl classify_one s

/-! ## Control plane (`packet_filter.c`) -/

/-- The record `initial_stats = {0}` that `main` writes to `stats_map` (line 227). -/
def initial_stats : packet_stats :=
  { total_packets := 0, tcp_packets := 0, dropped_packets := 0, passed_packets := 0 }

/-- Observable actions of the control plane, in program order. -/
inductive Event where
  | stderr_requires_argument (option : String)
  | stderr_invalid_port (port : Int)
  | stderr_unknown_option (option : String)
  | stderr_interface_required
  | stderr_invalid_interface (name : String)
  | stderr_open_failed
  | stderr_load_failed
  | stderr_program_not_found
  | stderr_no_program_fd
  | stderr_maps_not_found
  | stderr_stats_init_failed
  | stderr_set_port_failed
  | stderr_attach_failed (interface : String)
  | print_usage (prog_name : Option String)
  | signal_handlers_installed
  | bpf_object_open
  | bpf_object_load
  | bpf_object_close
  | bpf_map_update_stats (value : packet_stats)
  | bpf_map_update_port (value : Nat)
  | bpf_xdp_attach (ifindex : Int)
  | bpf_xdp_detach (ifindex : Int)
  | stdout_detached
  | stdout_loaded (interface : String) (port : Int) (show_stats : Bool)
  | sleep
  | print_stats
  | close_fd (fd : Int)
  | stdout_terminated
  deriving DecidableEq, Repr

/-- What `main` gets from outside the program: the libc and libbpf calls, and
the number of one-second rounds of the main loop before a signal clears
`keep_running`. -/
structure Env where
  atoi : String → Int
  if_nametoindex : String → Int
  object_open_ok : Bool
  object_load_ok : Bool
  program_found : Bool
  program_fd : Int
  port_map_found : Bool
  stats_map_found : Bool
  port_map_fd : Int
  stats_map_fd : Int
  stats_update_ok : Bool
  port_update_ok : Bool
  attach_ok : Bool
  rounds : Nat

/-- The locals `interface`, `port` and `show_stats` of `main`. -/
structure Options where
  interface : Option String
  port : Int
  show_stats : Bool
  deriving DecidableEq, Repr

/-- How the argument loop of `main` ends: with a `return`, or by running off
the end of `argv`. -/
inductive Parsed where
  | returned (status : Int) (events : List Event)
  | completed (opts : Options)
  deriving DecidableEq, Repr

/-- The loop `for (int i = 1; i < argc; i++)` of `main` (lines 107-155) over
the words `argv[i], argv[i+1], ...` still to be read. -/
def parse_arguments (atoi : String → Int) (prog_name : Option String) :
    List String → Options → Parsed
  | [], opts => .completed opts
  | a :: rest, opts =>
    if a = "-i" ∨ a = "--interface" then
      match rest with
      | v :: rest2 => parse_arguments atoi prog_name rest2 { opts with interface := some v }
      | [] => .returned 1 [.stderr_requires_argument a, .print_usage prog_name]
    else if a = "-p" ∨ a = "--port" then
      match rest with
      | v :: rest2 =>
        let port := atoi v
        if port ≤ 0 ∨ port > 65535 then
          .returned 1 [.stderr_invalid_port port]
        else
          parse_arguments atoi prog_name rest2 { opts with port := port }
      | [] => .returned 1 [.stderr_requires_argument a, .print_usage prog_name]
    else if a = "-s" ∨ a = "--stats" then
      parse_arguments atoi prog_name rest { opts with show_stats := true }
    else if a = "-h" ∨ a = "--help" then
      .returned 0 [.print_usage prog_name]
    else
      .returned 1 [.stderr_unknown_option a, .print_usage prog_name]

/-- The function `cleanup` (lines 39-58) on the globals `prog_fd`, `ifindex`,
`port_map_fd` and `stats_map_fd`. -/
def cleanup (prog_fd ifindex port_map_fd stats_map_fd : Int) : List Event :=
  (if prog_fd ≥ 0 ∧ ifindex ≥ 0 then [.bpf_xdp_detach ifindex, .stdout_detached] else [])
  ++ (if prog_fd ≥ 0 then [.close_fd prog_fd] else [])
  ++ (if port_map_fd ≥ 0 then [.close_fd port_map_fd] else [])
  ++ (if stats_map_fd ≥ 0 then [.close_fd stats_map_fd] else [])

/-- The loop `while (keep_running)` of `main` (lines 265-279) for the given
number of rounds, from the given value of `stats_counter`. -/
def main_loop (show_stats : Bool) : Nat → Nat → List Event
  | 0, _ => []
  | rounds + 1, stats_counter =>
    .sleep ::
      (if show_stats then
        if stats_counter + 1 ≥ 5 then
          .print_stats :: main_loop show_stats rounds 0
        else
          main_loop show_stats rounds (stats_counter + 1)
      else
        main_loop show_stats rounds stats_counter)

/-- The function `main` (lines 99-294): exit status and actions in order. -/
def main (env : Env) (argv : List String) : Int × List Event :=
  let prog_name := argv.head?
  -- Parse command line arguments
  match parse_arguments env.atoi prog_name argv.tail
      { interface := none, port := 4040, show_stats := false } with
  | .returned status events => (status, events)
  | .completed opts =>
    match opts.interface with
    | none => (1, [.stderr_interface_required, .print_usage prog_name])
    | some interface =>
      -- Get interface index
      let ifindex := env.if_nametoindex interface
      if ifindex = 0 then
        (1, [.stderr_invalid_interface interface])
      else
        -- Set up signal handlers, load BPF program
        let ev : List Event := [.signal_handlers_installed, .bpf_object_open]
        if ¬ env.object_open_ok then
          (1, ev ++ [.stderr_open_failed])
        else
          let ev := ev ++ [.bpf_object_load]
          if ¬ env.object_load_ok then
            (1, ev ++ [.stderr_load_failed, .bpf_object_close])
          else if ¬ env.program_found then
            (1, ev ++ [.stderr_program_not_found, .bpf_object_close])
          else
            let prog_fd := env.program_fd
            if prog_fd < 0 then
              (1, ev ++ [.stderr_no_program_fd, .bpf_object_close])
            else if ¬ env.port_map_found ∨ ¬ env.stats_map_found then
              (1, ev ++ [.stderr_maps_not_found, .bpf_object_close])
            else
              -- Initialize statistics map
              let ev := ev ++ [.bpf_map_update_stats initial_stats]
              if ¬ env.stats_update_ok then
                (1, ev ++ [.stderr_stats_init_failed, .bpf_object_close])
              else
                -- Set the port to filter
                let target_port := (opts.port % 65536).toNat
                let ev := ev ++ [.bpf_map_update_port target_port]
                if ¬ env.port_update_ok then
                  (1, ev ++ [.stderr_set_port_failed, .bpf_object_close])
                else
                  -- Attach XDP program to interface
                  let ev := ev ++ [.bpf_xdp_attach ifindex]
                  if ¬ env.attach_ok then
                    (1, ev ++ [.stderr_attach_failed interface, .bpf_object_close])
                  else
                    (0, ev ++ [.stdout_loaded interface opts.port opts.show_stats]
                      ++ main_loop opts.show_stats env.rounds 0
                      ++ (if opts.show_stats then [.print_stats] else [])
                      ++ cleanup prog_fd ifindex env.port_map_fd env.stats_map_fd
                      ++ [.bpf_object_close, .stdout_terminated])

/-- Decimal value of the digits at the head of `cs`, continuing from `acc`. -/
def atoi_digits : List Char → Int → Int
  | [], acc => acc
  | c :: cs, acc =>
    if c.isDigit then atoi_digits cs (10 * acc + (c.toNat - 48 : Nat)) else acc

/-- The C-locale `isspace` of libc: space, `\t`, `\n`, `\v`, `\f`, `\r`. -/
def isspace (c : Char) : Bool :=
  c.toNat = 32 || (9 ≤ c.toNat && c.toNat ≤ 13)

/-- The libc function `atoi` as ISO C describes it (`isspace` white space, an
optional sign, then decimal digits; 0 when there is no digit).  ISO C leaves
the result undefined when the value does not fit an `int`; this function then
gives the mathematical value.  It is only used to build concrete
environments: `main` takes `atoi` from `Env`. -/
def atoi (s : String) : Int :=
  match s.toList.dropWhile isspace with
  | '-' :: cs => - atoi_digits cs 0
  | '+' :: cs => atoi_digits cs 0
  | cs => atoi_digits cs 0

/-- An environment in which every call succeeds and the filter runs for twelve
seconds. -/
def env_ok : Env :=
  { atoi := atoi
    if_nametoindex := fun name => if name = "eth0" then 2 else 0
    object_open_ok := true
    object_load_ok := true
    program_found := true
    program_fd := 5
    port_map_found := true
    stats_map_found := true
    port_map_fd := 6
    stats_map_fd := 7
    stats_update_ok := true
    port_update_ok := true
    attach_ok := true
    rounds := 12 }

/-! ## Vocabulary of the claims -/

/-- Octet `i` of the frame as a number (0 beyond the end of the frame). -/
def byte_at (frame : List u8) (i : Nat) : Nat := (frame.getD i 0).val

/-- Ethertype IPv4: octets 12 and 13 are `0x08 0x00`. -/
def is_ipv4 (frame : List u8) : Prop := byte_at frame 12 = 0x08 ∧ byte_at frame 13 = 0x00

instance (frame : List u8) : Decidable (is_ipv4 frame) := by
  unfold is_ipv4; infer_instance

/-- IPv4 protocol TCP: octet 23 is 6. -/
def is_tcp (frame : List u8) : Prop := byte_at frame 23 = 6

instance (frame : List u8) : Decidable (is_tcp frame) := by
  unfold is_tcp; infer_instance

/-- Offset of the TCP header: `14 + 4 * ihl`, `ihl` the low nibble of octet 14. -/
def tcp_offset (frame : List u8) : Nat := 14 + 4 * (byte_at frame 14 % 16)

/-- Big-endian destination port: octets `offset + 2` and `offset + 3`. -/
def dest_port (frame : List u8) : Nat :=
  256 * byte_at frame (tcp_offset frame + 2) + byte_at frame (tcp_offset frame + 3)

/-- Big-endian source port: octets `offset + 0` and `offset + 1`. -/
def source_port (frame : List u8) : Nat :=
  256 * byte_at frame (tcp_offset frame) + byte_at frame (tcp_offset frame + 1)

/-- A 64-bit counter went from `old` to `new` by one increment: `new` is
`old + 1` in 64-bit arithmetic, which is `old + 1` itself as long as `old` is
below the largest value `2^64 - 1`. -/
def increased_by_one (old new : Nat) : Prop :=
  new = (old + 1) % 2 ^ 64 ∧ (old + 1 < 2 ^ 64 → new = old + 1)

instance (old new : Nat) : Decidable (increased_by_one old new) := by
  unfold increased_by_one; infer_instance

/-- The frame is rejected before a full parse: too short at the Ethernet, the
IPv4 or the TCP header stage. -/
def rejected_before_full_parse (frame : List u8) : Bool :=
  decide (frame.length < 14
    ∨ (14 ≤ frame.length ∧ is_ipv4 frame ∧ frame.length < 34)
    ∨ (34 ≤ frame.length ∧ is_ipv4 frame ∧ is_tcp frame ∧ frame.length < tcp_offset frame + 20))

/-- Number of frames of the sequence that are rejected before a full parse. -/
def rejected_count (xs : List (List u8 × Option u16)) : Nat :=
  (xs.filter fun x => rejected_before_full_parse x.1).length

/-- No counter of `a` is above its counterpart in `b`. -/
def counters_le (a b : packet_stats) : Prop :=
  a.total_packets ≤ b.total_packets ∧ a.tcp_packets ≤ b.tcp_packets
    ∧ a.dropped_packets ≤ b.dropped_packets ∧ a.passed_packets ≤ b.passed_packets

instance (a b : packet_stats) : Decidable (counters_le a b) := by
  unfold counters_le; infer_instance

/-- A word of the command line in option position, with its argument when it
is one of the two options that take one. -/
inductive Token where
  | flag (name : String)
  | valued (name value : String)
  | dangling (name : String)
  deriving DecidableEq, Repr

/-- The options of the command-line surface that take an argument. -/
def takes_value (a : String) : Bool :=
  decide (a = "-i" ∨ a = "--interface" ∨ a = "-p" ∨ a = "--port")

/-- The command line read left to right as options and their arguments. -/
def tokens : List String → List Token
  | [] => []
  | a :: rest =>
    if takes_value a then
      match rest with
      | v :: rest2 => .valued a v :: tokens rest2
      | [] => [.dangling a]
    else
      .flag a :: tokens rest

/-- A `-p`/`--port` whose argument parses to an integer `<= 0` or `> 65535`. -/
def invalid_port_argument (atoi : String → Int) : Token → Bool
  | .valued name value =>
    decide ((name = "-p" ∨ name = "--port") ∧ (atoi value ≤ 0 ∨ atoi value > 65535))
  | _ => false

/-- A `-i`/`--interface` with its argument. -/
def supplies_interface : Token → Bool
  | .valued name _ => decide (name = "-i" ∨ name = "--interface")
  | _ => false

/-- A `-h`/`--help`. -/
def asks_help : Token → Bool
  | .flag name => decide (name = "-h" ∨ name = "--help")
  | _ => false

/-- The options at which reading the command line stops: every lone word other
than `-s`/`--stats` (help or unknown), an option missing its argument, and an
invalid port. -/
def ends_scan (atoi : String → Int) : Token → Bool
  | .flag name => decide (¬ (name = "-s" ∨ name = "--stats"))
  | .valued name value => invalid_port_argument atoi (.valued name value)
  | .dangling _ => true

/-- The first option at which reading the command line stops is a help option. -/
def help_first (atoi : String → Int) (args : List String) : Bool :=
  match (tokens args).find? (ends_scan atoi) with
  | some t => asks_help t
  | none => false

/-- Reading the command line stops at a `-p`/`--port` with an invalid
argument: no help option, unknown option or option missing its argument comes
before it. -/
def stops_at_invalid_port (atoi : String → Int) (args : List String) : Bool :=
  match (tokens args).find? (ends_scan atoi) with
  | some t => invalid_port_argument atoi t
  | none => false

/-- Actions that load a BPF object, write a map or attach the hook. -/
def is_bpf_action : Event → Bool
  | .bpf_object_open => true
  | .bpf_object_load => true
  | .bpf_map_update_stats _ => true
  | .bpf_map_update_port _ => true
  | .bpf_xdp_attach _ => true
  | _ => false

/-! ## Concrete frames -/

/-- Ethernet + IPv4 (ihl 5) + TCP, source port 4040 (0x0fc8), destination port
9999 (0x270f); 54 octets. -/
def frame_4040_to_9999 : List u8 :=
  [0, 0, 0, 0, 0, 1, 0, 0, 0, 0, 0, 2, 0x08, 0x00,
   0x45, 0, 0, 40, 0, 0, 0, 0, 64, 6, 0, 0, 10, 0, 0, 1, 10, 0, 0, 2,
   0x0f, 0xc8, 0x27, 0x0f, 0, 0, 0, 0, 0, 0, 0, 0, 0x50, 0x02, 0xff, 0xff, 0, 0, 0, 0]

/-- Ethernet + IPv4 (ihl 5) + TCP, source port 50000 (0xc350), destination port
8080 (0x1f90); 54 octets. -/
def frame_50000_to_8080 : List u8 :=
  [0, 0, 0, 0, 0, 1, 0, 0, 0, 0, 0, 2, 0x08, 0x00,
   0x45, 0, 0, 40, 0, 0, 0, 0, 64, 6, 0, 0, 10, 0, 0, 1, 10, 0, 0, 2,
   0xc3, 0x50, 0x1f, 0x90, 0, 0, 0, 0, 0, 0, 0, 0, 0x50, 0x02, 0xff, 0xff, 0, 0, 0, 0]

/-- Ethernet + IPv4 (ihl 5, protocol 17 = UDP) + UDP header; 42 octets. -/
def frame_udp : List u8 :=
  [0, 0, 0, 0, 0, 1, 0, 0, 0, 0, 0, 2, 0x08, 0x00,
   0x45, 0, 0, 28, 0, 0, 0, 0, 64, 17, 0, 0, 10, 0, 0, 1, 10, 0, 0, 2,
   0x0f, 0xc8, 0x0f, 0xc8, 0, 8, 0, 0]

/-- Ethernet header with ethertype IPv4 followed by the first 10 octets of an
IPv4 header; 24 octets. -/
def frame_cut_in_ip : List u8 :=
  [0, 0, 0, 0, 0, 1, 0, 0, 0, 0, 0, 2, 0x08, 0x00,
   0x45, 0, 0, 40, 0, 0, 0, 0, 64, 6]

/-- Ethernet + IPv4 (ihl 5, protocol TCP) followed by the first 6 octets of a
TCP header; 40 octets, 14 short of `14 + 4 * 5 + 20`. -/
def frame_cut_in_tcp : List u8 :=
  [0, 0, 0, 0, 0, 1, 0, 0, 0, 0, 0, 2, 0x08, 0x00,
   0x45, 0, 0, 40, 0, 0, 0, 0, 64, 6, 0, 0, 10, 0, 0, 1, 10, 0, 0, 2,
   0x0f, 0xc8, 0x27, 0x0f, 0, 0]

/-! ## Evaluation of `xdp_packet_filter` along each of its paths -/

theorem load_u8_run (frame : List u8) (off : Nat) (st : State) (h : off < frame.length) :
    (load_u8 frame off).run st
      = some (byte_at frame off, { st with loads := st.loads ++ [(off, 1)] }) := by
  simp [load_u8, record_load, byte_at, List.getD, List.getElem?_eq_getElem h]

theorem load_be16_run (frame : List u8) (off : Nat) (st : State) (h : off + 2 ≤ frame.length) :
    (load_be16 frame off).run st
      = some ((byte_at frame off, byte_at frame (off + 1)),
          { st with loads := st.loads ++ [(off, 2)] }) := by
  have h0 : off < frame.length := by omega
  have h1 : off + 1 < frame.length := by omega
  simp [load_be16, record_load, byte_at, List.getD, List.getElem?_eq_getElem h0,
    List.getElem?_eq_getElem h1]

theorem htons_ip : bpf_htons ETH_P_IP = (8, 0) := by
  simp [bpf_htons, ETH_P_IP]

theorem tcp_ptr (frame : List u8) : 14 + byte_at frame 14 % 16 * 4 = tcp_offset frame := by
  unfold tcp_offset; omega

theorem run_aborted (frame : List u8) (port : Option u16) :
    invoke frame port none = some (XDP_ABORTED, ⟨port, none, []⟩) := by
  simp [invoke, xdp_packet_filter, lookup_stats]

theorem run_short_eth (frame : List u8) (port : Option u16) (s : packet_stats)
    (h : frame.length < 14) :
    invoke frame port (some s)
      = some (XDP_PASS, ⟨port, some { s with total_packets := (s.total_packets + 1) % 2 ^ 64 }, []⟩) := by
  simp [invoke, xdp_packet_filter, lookup_stats, add_total_packets, update_stats, sizeof_ethhdr,
    sync_fetch_and_add, h]

theorem run_not_ipv4 (frame : List u8) (port : Option u16) (s : packet_stats)
    (h : 14 ≤ frame.length) (hp : ¬ (byte_at frame 12 = 8 ∧ byte_at frame 13 = 0)) :
    invoke frame port (some s)
      = some (XDP_PASS, ⟨port, some { s with
          total_packets := (s.total_packets + 1) % 2 ^ 64
          passed_packets := (s.passed_packets + 1) % 2 ^ 64 }, [(12, 2)]⟩) := by
  have h1 : ¬ frame.length < 14 := by omega
  simp [invoke, xdp_packet_filter, lookup_stats, add_total_packets, add_passed_packets, update_stats,
    sizeof_ethhdr, ethhdr_h_proto, sync_fetch_and_add, h1, load_be16_run frame 12 _ (by omega),
    htons_ip, hp]

theorem run_short_ip (frame : List u8) (port : Option u16) (s : packet_stats)
    (h : 14 ≤ frame.length) (hp : byte_at frame 12 = 8 ∧ byte_at frame 13 = 0)
    (h2 : frame.length < 34) :
    invoke frame port (some s)
      = some (XDP_PASS, ⟨port, some { s with
          total_packets := (s.total_packets + 1) % 2 ^ 64 }, [(12, 2)]⟩) := by
  have h1 : ¬ frame.length < 14 := by omega
  simp [invoke, xdp_packet_filter, lookup_stats, add_total_packets, update_stats,
    sizeof_ethhdr, sizeof_iphdr, ethhdr_h_proto, sync_fetch_and_add, h1,
    load_be16_run frame 12 _ (by omega), htons_ip, hp, h2]

theorem run_not_tcp (frame : List u8) (port : Option u16) (s : packet_stats)
    (hp : byte_at frame 12 = 8 ∧ byte_at frame 13 = 0)
    (h2 : 34 ≤ frame.length) (hq : byte_at frame 23 ≠ 6) :
    invoke frame port (some s)
      = some (XDP_PASS, ⟨port, some { s with
          total_packets := (s.total_packets + 1) % 2 ^ 64
          passed_packets := (s.passed_packets + 1) % 2 ^ 64 }, [(12, 2), (23, 1)]⟩) := by
  have h1 : ¬ frame.length < 14 := by omega
  have h3 : ¬ frame.length < 34 := by omega
  simp [invoke, xdp_packet_filter, lookup_stats, add_total_packets, add_passed_packets, update_stats,
    sizeof_ethhdr, sizeof_iphdr, ethhdr_h_proto, iphdr_protocol, IPPROTO_TCP, sync_fetch_and_add, h1,
    load_be16_run frame 12 _ (by omega), load_u8_run frame 23 _ (by omega), htons_ip, hp, h3, hq]

theorem run_short_tcp (frame : List u8) (port : Option u16) (s : packet_stats)
    (hp : byte_at frame 12 = 8 ∧ byte_at frame 13 = 0)
    (h2 : 34 ≤ frame.length) (hq : byte_at frame 23 = 6)
    (ht : frame.length < tcp_offset frame + 20) :
    invoke frame port (some s)
      = some (XDP_PASS, ⟨port, some { s with
          total_packets := (s.total_packets + 1) % 2 ^ 64
          tcp_packets := (s.tcp_packets + 1) % 2 ^ 64 }, [(12, 2), (23, 1), (14, 1)]⟩) := by
  have h1 : ¬ frame.length < 14 := by omega
  have h3 : ¬ frame.length < 34 := by omega
  simp [invoke, xdp_packet_filter, lookup_stats, add_total_packets, add_tcp_packets, update_stats,
    sizeof_ethhdr, sizeof_iphdr, sizeof_tcphdr, ethhdr_h_proto, iphdr_protocol, iphdr_ihl, IPPROTO_TCP,
    sync_fetch_and_add, h1,
    load_be16_run frame 12 _ (by omega), load_u8_run frame 23 _ (by omega),
    load_u8_run frame 14 _ (by omega), htons_ip, hp, h3, hq, tcp_ptr, ht]

theorem run_unset (frame : List u8) (s : packet_stats)
    (hp : byte_at frame 12 = 8 ∧ byte_at frame 13 = 0)
    (h2 : 34 ≤ frame.length) (hq : byte_at frame 23 = 6)
    (ht : tcp_offset frame + 20 ≤ frame.length) :
    invoke frame none (some s)
      = some (XDP_PASS, ⟨none, some { s with
          total_packets := (s.total_packets + 1) % 2 ^ 64
          tcp_packets := (s.tcp_packets + 1) % 2 ^ 64
          passed_packets := (s.passed_packets + 1) % 2 ^ 64 }, [(12, 2), (23, 1), (14, 1)]⟩) := by
  have h1 : ¬ frame.length < 14 := by omega
  have h3 : ¬ frame.length < 34 := by omega
  have h4 : ¬ frame.length < tcp_offset frame + 20 := by omega
  simp [invoke, xdp_packet_filter, lookup_stats, lookup_port, add_total_packets, add_tcp_packets,
    add_passed_packets, update_stats,
    sizeof_ethhdr, sizeof_iphdr, sizeof_tcphdr, ethhdr_h_proto, iphdr_protocol, iphdr_ihl, IPPROTO_TCP,
    sync_fetch_and_add, h1,
    load_be16_run frame 12 _ (by omega), load_u8_run frame 23 _ (by omega),
    load_u8_run frame 14 _ (by omega), htons_ip, hp, h3, hq, tcp_ptr, h4]

theorem run_dest_match (frame : List u8) (p : u16) (s : packet_stats)
    (hp : byte_at frame 12 = 8 ∧ byte_at frame 13 = 0)
    (h2 : 34 ≤ frame.length) (hq : byte_at frame 23 = 6)
    (ht : tcp_offset frame + 20 ≤ frame.length) (hd : dest_port frame = p.val) :
    invoke frame (some p) (some s)
      = some (XDP_DROP, ⟨some p, some { s with
          total_packets := (s.total_packets + 1) % 2 ^ 64
          tcp_packets := (s.tcp_packets + 1) % 2 ^ 64
          dropped_packets := (s.dropped_packets + 1) % 2 ^ 64 },
          [(12, 2), (23, 1), (14, 1), (tcp_offset frame + 2, 2)]⟩) := by
  have h1 : ¬ frame.length < 14 := by omega
  have h3 : ¬ frame.length < 34 := by omega
  have h4 : ¬ frame.length < tcp_offset frame + 20 := by omega
  have hd2 : bpf_ntohs (byte_at frame (tcp_offset frame + 2), byte_at frame (tcp_offset frame + 2 + 1))
      = p.val := by
    rw [← hd]; rfl
  simp [invoke, xdp_packet_filter, lookup_stats, lookup_port, add_total_packets, add_tcp_packets,
    add_dropped_packets, update_stats,
    sizeof_ethhdr, sizeof_iphdr, sizeof_tcphdr, ethhdr_h_proto, iphdr_protocol, iphdr_ihl, IPPROTO_TCP,
    tcphdr_dest, sync_fetch_and_add, h1,
    load_be16_run frame 12 _ (by omega), load_u8_run frame 23 _ (by omega),
    load_u8_run frame 14 _ (by omega), load_be16_run frame (tcp_offset frame + 2) _ (by omega),
    htons_ip, hp, h3, hq, tcp_ptr, h4, hd2]

theorem run_source_match (frame : List u8) (p : u16) (s : packet_stats)
    (hp : byte_at frame 12 = 8 ∧ byte_at frame 13 = 0)
    (h2 : 34 ≤ frame.length) (hq : byte_at frame 23 = 6)
    (ht : tcp_offset frame + 20 ≤ frame.length) (hd : dest_port frame ≠ p.val)
    (hs : source_port frame = p.val) :
    invoke frame (some p) (some s)
      = some (XDP_DROP, ⟨some p, some { s with
          total_packets := (s.total_packets + 1) % 2 ^ 64
          tcp_packets := (s.tcp_packets + 1) % 2 ^ 64
          dropped_packets := (s.dropped_packets + 1) % 2 ^ 64 },
          [(12, 2), (23, 1), (14, 1), (tcp_offset frame + 2, 2), (tcp_offset frame, 2)]⟩) := by
  have h1 : ¬ frame.length < 14 := by omega
  have h3 : ¬ frame.length < 34 := by omega
  have h4 : ¬ frame.length < tcp_offset frame + 20 := by omega
  have hd2 : bpf_ntohs (byte_at frame (tcp_offset frame + 2), byte_at frame (tcp_offset frame + 2 + 1))
      ≠ p.val := by
    intro hc; apply hd; rw [← hc]; rfl
  have hs2 : bpf_ntohs (byte_at frame (tcp_offset frame), byte_at frame (tcp_offset frame + 1))
      = p.val := by
    rw [← hs]; rfl
  simp [invoke, xdp_packet_filter, lookup_stats, lookup_port, add_total_packets, add_tcp_packets,
    add_dropped_packets, update_stats,
    sizeof_ethhdr, sizeof_iphdr, sizeof_tcphdr, ethhdr_h_proto, iphdr_protocol, iphdr_ihl, IPPROTO_TCP,
    tcphdr_dest, tcphdr_source, sync_fetch_and_add, h1,
    load_be16_run frame 12 _ (by omega), load_u8_run frame 23 _ (by omega),
    load_u8_run frame 14 _ (by omega), load_be16_run frame (tcp_offset frame + 2) _ (by omega),
    load_be16_run frame (tcp_offset frame) _ (by omega),
    htons_ip, hp, h3, hq, tcp_ptr, h4, hd2, hs2]

theorem run_no_match (frame : List u8) (p : u16) (s : packet_stats)
    (hp : byte_at frame 12 = 8 ∧ byte_at frame 13 = 0)
    (h2 : 34 ≤ frame.length) (hq : byte_at frame 23 = 6)
    (ht : tcp_offset frame + 20 ≤ frame.length) (hd : dest_port frame ≠ p.val)
    (hs : source_port frame ≠ p.val) :
    invoke frame (some p) (some s)
      = some (XDP_PASS, ⟨some p, some { s with
          total_packets := (s.total_packets + 1) % 2 ^ 64
          tcp_packets := (s.tcp_packets + 1) % 2 ^ 64
          passed_packets := (s.passed_packets + 1) % 2 ^ 64 },
          [(12, 2), (23, 1), (14, 1), (tcp_offset frame + 2, 2), (tcp_offset frame, 2)]⟩) := by
  have h1 : ¬ frame.length < 14 := by omega
  have h3 : ¬ frame.length < 34 := by omega
  have h4 : ¬ frame.length < tcp_offset frame + 20 := by omega
  have hd2 : bpf_ntohs (byte_at frame (tcp_offset frame + 2), byte_at frame (tcp_offset frame + 2 + 1))
      ≠ p.val := by
    intro hc; apply hd; rw [← hc]; rfl
  have hs2 : bpf_ntohs (byte_at frame (tcp_offset frame), byte_at frame (tcp_offset frame + 1))
      ≠ p.val := by
    intro hc; apply hs; rw [← hc]; rfl
  simp [invoke, xdp_packet_filter, lookup_stats, lookup_port, add_total_packets, add_tcp_packets,
    add_passed_packets, update_stats,
    sizeof_ethhdr, sizeof_iphdr, sizeof_tcphdr, ethhdr_h_proto, iphdr_protocol, iphdr_ihl, IPPROTO_TCP,
    tcphdr_dest, tcphdr_source, sync_fetch_and_add, h1,
    load_be16_run frame 12 _ (by omega), load_u8_run frame 23 _ (by omega),
    load_u8_run frame 14 _ (by omega), load_be16_run frame (tcp_offset frame + 2) _ (by omega),
    load_be16_run frame (tcp_offset frame) _ (by omega),
    htons_ip, hp, h3, hq, tcp_ptr, h4, hd2, hs2]


/-- Exhaustive case split over the return statements of `xdp_packet_filter`
when the stats record is present: the result of the run, then the condition
under which that return is taken. -/
theorem run_cases (frame : List u8) (port : Option u16) (s : packet_stats) :
    (invoke frame port (some s)
      = some (XDP_PASS, ⟨port, some { s with total_packets := (s.total_packets + 1) % 2 ^ 64 }, []⟩)
      ∧ frame.length < 14)
    ∨ (invoke frame port (some s)
      = some (XDP_PASS, ⟨port, some { s with
          total_packets := (s.total_packets + 1) % 2 ^ 64
          passed_packets := (s.passed_packets + 1) % 2 ^ 64 }, [(12, 2)]⟩)
      ∧ 14 ≤ frame.length ∧ ¬ is_ipv4 frame)
    ∨ (invoke frame port (some s)
      = some (XDP_PASS, ⟨port, some { s with
          total_packets := (s.total_packets + 1) % 2 ^ 64 }, [(12, 2)]⟩)
      ∧ 14 ≤ frame.length ∧ is_ipv4 frame ∧ frame.length < 34)
    ∨ (invoke frame port (some s)
      = some (XDP_PASS, ⟨port, some { s with
          total_packets := (s.total_packets + 1) % 2 ^ 64
          passed_packets := (s.passed_packets + 1) % 2 ^ 64 }, [(12, 2), (23, 1)]⟩)
      ∧ 34 ≤ frame.length ∧ is_ipv4 frame ∧ ¬ is_tcp frame)
    ∨ (invoke frame port (some s)
      = some (XDP_PASS, ⟨port, some { s with
          total_packets := (s.total_packets + 1) % 2 ^ 64
          tcp_packets := (s.tcp_packets + 1) % 2 ^ 64 }, [(12, 2), (23, 1), (14, 1)]⟩)
      ∧ 34 ≤ frame.length ∧ is_ipv4 frame ∧ is_tcp frame ∧ frame.length < tcp_offset frame + 20)
    ∨ (invoke frame port (some s)
      = some (XDP_PASS, ⟨port, some { s with
          total_packets := (s.total_packets + 1) % 2 ^ 64
          tcp_packets := (s.tcp_packets + 1) % 2 ^ 64
          passed_packets := (s.passed_packets + 1) % 2 ^ 64 }, [(12, 2), (23, 1), (14, 1)]⟩)
      ∧ 34 ≤ frame.length ∧ is_ipv4 frame ∧ is_tcp frame ∧ tcp_offset frame + 20 ≤ frame.length)
    ∨ (invoke frame port (some s)
      = some (XDP_DROP, ⟨port, some { s with
          total_packets := (s.total_packets + 1) % 2 ^ 64
          tcp_packets := (s.tcp_packets + 1) % 2 ^ 64
          dropped_packets := (s.dropped_packets + 1) % 2 ^ 64 },
          [(12, 2), (23, 1), (14, 1), (tcp_offset frame + 2, 2)]⟩)
      ∧ 34 ≤ frame.length ∧ is_ipv4 frame ∧ is_tcp frame ∧ tcp_offset frame + 20 ≤ frame.length)
    ∨ (invoke frame port (some s)
      = some (XDP_DROP, ⟨port, some { s with
          total_packets := (s.total_packets + 1) % 2 ^ 64
          tcp_packets := (s.tcp_packets + 1) % 2 ^ 64
          dropped_packets := (s.dropped_packets + 1) % 2 ^ 64 },
          [(12, 2), (23, 1), (14, 1), (tcp_offset frame + 2, 2), (tcp_offset frame, 2)]⟩)
      ∧ 34 ≤ frame.length ∧ is_ipv4 frame ∧ is_tcp frame ∧ tcp_offset frame + 20 ≤ frame.length)
    ∨ (invoke frame port (some s)
      = some (XDP_PASS, ⟨port, some { s with
          total_packets := (s.total_packets + 1) % 2 ^ 64
          tcp_packets := (s.tcp_packets + 1) % 2 ^ 64
          passed_packets := (s.passed_packets + 1) % 2 ^ 64 },
          [(12, 2), (23, 1), (14, 1), (tcp_offset frame + 2, 2), (tcp_offset frame, 2)]⟩)
      ∧ 34 ≤ frame.length ∧ is_ipv4 frame ∧ is_tcp frame ∧ tcp_offset frame + 20 ≤ frame.length) := by
  by_cases h14 : frame.length < 14
  · exact Or.inl ⟨run_short_eth frame port s h14, h14⟩
  have h14' : 14 ≤ frame.length := by omega
  by_cases hv4 : is_ipv4 frame
  swap
  · exact Or.inr (Or.inl ⟨run_not_ipv4 frame port s h14' hv4, h14', hv4⟩)
  by_cases h34 : frame.length < 34
  · exact Or.inr (Or.inr (Or.inl ⟨run_short_ip frame port s h14' hv4 h34, h14', hv4, h34⟩))
  have h34' : 34 ≤ frame.length := by omega
  by_cases htcp : is_tcp frame
  swap
  · exact Or.inr (Or.inr (Or.inr (Or.inl ⟨run_not_tcp frame port s hv4 h34' htcp, h34', hv4, htcp⟩)))
  by_cases hoff : frame.length < tcp_offset frame + 20
  · exact Or.inr (Or.inr (Or.inr (Or.inr (Or.inl
      ⟨run_short_tcp frame port s hv4 h34' htcp hoff, h34', hv4, htcp, hoff⟩))))
  have hoff' : tcp_offset frame + 20 ≤ frame.length := by omega
  cases port with
  | none =>
    exact Or.inr (Or.inr (Or.inr (Or.inr (Or.inr (Or.inl
      ⟨run_unset frame s hv4 h34' htcp hoff', h34', hv4, htcp, hoff'⟩)))))
  | some p =>
    by_cases hd : dest_port frame = p.val
    · exact Or.inr (Or.inr (Or.inr (Or.inr (Or.inr (Or.inr (Or.inl
        ⟨run_dest_match frame p s hv4 h34' htcp hoff' hd, h34', hv4, htcp, hoff'⟩))))))
    by_cases hs : source_port frame = p.val
    · exact Or.inr (Or.inr (Or.inr (Or.inr (Or.inr (Or.inr (Or.inr (Or.inl
        ⟨run_source_match frame p s hv4 h34' htcp hoff' hd hs, h34', hv4, htcp, hoff'⟩)))))))
    · exact Or.inr (Or.inr (Or.inr (Or.inr (Or.inr (Or.inr (Or.inr (Or.inr
        ⟨run_no_match frame p s hv4 h34' htcp hoff' hd hs, h34', hv4, htcp, hoff'⟩)))))))

theorem tcp_offset_ge (frame : List u8) : 14 ≤ tcp_offset frame := by
  unfold tcp_offset; omega

theorem increased_by_one_mod (x : Nat) :
    increased_by_one x ((x + 1) % 18446744073709551616) :=
  ⟨rfl, fun h => Nat.mod_eq_of_lt h⟩

/-! ## Claims about single frames -/

/-- C1: a frame with a full Ethernet header of ethertype IPv4, a full IPv4
header of protocol TCP and a full TCP header at offset `14 + 4 * ihl`, whose
destination port or source port equals the configured port `p`, is dropped;
`total`, `tcp` and `dropped` increase by exactly 1 and `passed` is unchanged
(one increment of `dropped` also when both ports equal `p`).  The counters
being `__u64`, an increase by 1 is `increased_by_one`: `+ 1` in 64-bit
arithmetic, which is `+ 1` itself below `2^64 - 1`. -/
theorem drop_when_port_matches (frame : List u8) (p : u16) (s : packet_stats)
    (heth : 14 ≤ frame.length ∧ is_ipv4 frame)
    (hip : 34 ≤ frame.length ∧ is_tcp frame)
    (htcp : tcp_offset frame + 20 ≤ frame.length)
    (hmatch : dest_port frame = p.val ∨ source_port frame = p.val) :
    verdict frame (some p) (some s) = some XDP_DROP
    ∧ ∃ s2, stats_after frame (some p) (some s) = some s2
        ∧ increased_by_one s.total_packets s2.total_packets
        ∧ increased_by_one s.tcp_packets s2.tcp_packets
        ∧ increased_by_one s.dropped_packets s2.dropped_packets
        ∧ s2.passed_packets = s.passed_packets := by
  by_cases hd : dest_port frame = p.val
  · have h := run_dest_match frame p s heth.2 hip.1 hip.2 htcp hd
    simp [verdict, stats_after, h, increased_by_one_mod]
  · have hs : source_port frame = p.val := by
      rcases hmatch with h | h
      · exact absurd h hd
      · exact h
    have h := run_source_match frame p s heth.2 hip.1 hip.2 htcp hd hs
    simp [verdict, stats_after, h, increased_by_one_mod]

/-- Instance of C1 on the frame of the specification example: source port 4040,
destination port 9999, configured port 4040. -/
theorem drop_when_port_matches_witness :
    verdict frame_4040_to_9999 (some 4040) (some initial_stats) = some XDP_DROP
    ∧ ∃ s2, stats_after frame_4040_to_9999 (some 4040) (some initial_stats) = some s2
        ∧ increased_by_one initial_stats.total_packets s2.total_packets
        ∧ increased_by_one initial_stats.tcp_packets s2.tcp_packets
        ∧ increased_by_one initial_stats.dropped_packets s2.dropped_packets
        ∧ s2.passed_packets = initial_stats.passed_packets :=
  drop_when_port_matches frame_4040_to_9999 4040 initial_stats
    (by decide) (by decide) (by decide) (by decide)

/-- C2: a frame with full Ethernet/IPv4/TCP headers whose destination and
source ports both differ from the configured port `p` is passed; `total`,
`tcp` and `passed` increase by exactly 1 and `dropped` is unchanged. -/
theorem pass_when_no_port_matches (frame : List u8) (p : u16) (s : packet_stats)
    (heth : 14 ≤ frame.length ∧ is_ipv4 frame)
    (hip : 34 ≤ frame.length ∧ is_tcp frame)
    (htcp : tcp_offset frame + 20 ≤ frame.length)
    (hd : dest_port frame ≠ p.val) (hs : source_port frame ≠ p.val) :
    verdict frame (some p) (some s) = some XDP_PASS
    ∧ ∃ s2, stats_after frame (some p) (some s) = some s2
        ∧ increased_by_one s.total_packets s2.total_packets
        ∧ increased_by_one s.tcp_packets s2.tcp_packets
        ∧ increased_by_one s.passed_packets s2.passed_packets
        ∧ s2.dropped_packets = s.dropped_packets := by
  have h := run_no_match frame p s heth.2 hip.1 hip.2 htcp hd hs
  simp [verdict, stats_after, h, increased_by_one_mod]

/-- Instance of C2 on the frame of the specification example: destination port
8080, configured port 4040. -/
theorem pass_when_no_port_matches_witness :
    verdict frame_50000_to_8080 (some 4040) (some initial_stats) = some XDP_PASS
    ∧ ∃ s2, stats_after frame_50000_to_8080 (some 4040) (some initial_stats) = some s2
        ∧ increased_by_one initial_stats.total_packets s2.total_packets
        ∧ increased_by_one initial_stats.tcp_packets s2.tcp_packets
        ∧ increased_by_one initial_stats.passed_packets s2.passed_packets
        ∧ s2.dropped_packets = initial_stats.dropped_packets :=
  pass_when_no_port_matches frame_50000_to_8080 4040 initial_stats
    (by decide) (by decide) (by decide) (by decide) (by decide)

/-- C3: with the port configuration unset and the stats record available, a
frame with full Ethernet/IPv4/TCP headers is passed whatever its ports are;
`total`, `tcp` and `passed` increase by exactly 1 and `dropped` is unchanged. -/
theorem pass_when_port_unset (frame : List u8) (s : packet_stats)
    (heth : 14 ≤ frame.length ∧ is_ipv4 frame)
    (hip : 34 ≤ frame.length ∧ is_tcp frame)
    (htcp : tcp_offset frame + 20 ≤ frame.length) :
    verdict frame none (some s) = some XDP_PASS
    ∧ ∃ s2, stats_after frame none (some s) = some s2
        ∧ increased_by_one s.total_packets s2.total_packets
        ∧ increased_by_one s.tcp_packets s2.tcp_packets
        ∧ increased_by_one s.passed_packets s2.passed_packets
        ∧ s2.dropped_packets = s.dropped_packets := by
  have h := run_unset frame s heth.2 hip.1 hip.2 htcp
  simp [verdict, stats_after, h, increased_by_one_mod]

/-- Instance of C3 on a TCP frame from port 4040 to port 9999. -/
theorem pass_when_port_unset_witness :
    verdict frame_4040_to_9999 none (some initial_stats) = some XDP_PASS
    ∧ ∃ s2, stats_after frame_4040_to_9999 none (some initial_stats) = some s2
        ∧ increased_by_one initial_stats.total_packets s2.total_packets
        ∧ increased_by_one initial_stats.tcp_packets s2.tcp_packets
        ∧ increased_by_one initial_stats.passed_packets s2.passed_packets
        ∧ s2.dropped_packets = initial_stats.dropped_packets :=
  pass_when_port_unset frame_4040_to_9999 initial_stats
    (by decide) (by decide) (by decide)

/-- C4: a frame of at least 14 octets whose ethertype is not IPv4, and a frame
of at least 34 octets whose ethertype is IPv4 and whose protocol is not TCP,
is passed under any port configuration; `total` and `passed` increase by
exactly 1, `tcp` and `dropped` are unchanged. -/
theorem pass_non_tcp (frame : List u8) (port : Option u16) (s : packet_stats)
    (h : (14 ≤ frame.length ∧ ¬ is_ipv4 frame)
      ∨ (34 ≤ frame.length ∧ is_ipv4 frame ∧ ¬ is_tcp frame)) :
    verdict frame port (some s) = some XDP_PASS
    ∧ ∃ s2, stats_after frame port (some s) = some s2
        ∧ increased_by_one s.total_packets s2.total_packets
        ∧ increased_by_one s.passed_packets s2.passed_packets
        ∧ s2.tcp_packets = s.tcp_packets
        ∧ s2.dropped_packets = s.dropped_packets := by
  rcases h with ⟨h14, hv4⟩ | ⟨h34, hv4, hproto⟩
  · have h := run_not_ipv4 frame port s h14 hv4
    simp [verdict, stats_after, h, increased_by_one_mod]
  · have h := run_not_tcp frame port s hv4 h34 hproto
    simp [verdict, stats_after, h, increased_by_one_mod]

/-- Instance of C4 on the IPv4/UDP frame of the specification example. -/
theorem pass_non_tcp_witness :
    verdict frame_udp (some 4040) (some initial_stats) = some XDP_PASS
    ∧ ∃ s2, stats_after frame_udp (some 4040) (some initial_stats) = some s2
        ∧ increased_by_one initial_stats.total_packets s2.total_packets
        ∧ increased_by_one initial_stats.passed_packets s2.passed_packets
        ∧ s2.tcp_packets = initial_stats.tcp_packets
        ∧ s2.dropped_packets = initial_stats.dropped_packets :=
  pass_non_tcp frame_udp (some 4040) initial_stats (Or.inr (by decide))

/-- C5: a frame shorter than 14 octets, and a frame of 14 to 33 octets whose
ethertype is IPv4, is passed under any port configuration; `total` increases
by exactly 1 and `tcp`, `passed` and `dropped` are unchanged. -/
theorem pass_truncated_before_ip_end (frame : List u8) (port : Option u16) (s : packet_stats)
    (h : frame.length < 14 ∨ (14 ≤ frame.length ∧ frame.length ≤ 33 ∧ is_ipv4 frame)) :
    verdict frame port (some s) = some XDP_PASS
    ∧ ∃ s2, stats_after frame port (some s) = some s2
        ∧ increased_by_one s.total_packets s2.total_packets
        ∧ s2.tcp_packets = s.tcp_packets
        ∧ s2.passed_packets = s.passed_packets
        ∧ s2.dropped_packets = s.dropped_packets := by
  rcases h with h14 | ⟨h14, h33, hv4⟩
  · have h := run_short_eth frame port s h14
    simp [verdict, stats_after, h, increased_by_one_mod]
  · have h := run_short_ip frame port s h14 hv4 (by omega)
    simp [verdict, stats_after, h, increased_by_one_mod]

/-- Instance of C5 on a 24-octet frame cut inside the IPv4 header. -/
theorem pass_truncated_before_ip_end_witness :
    verdict frame_cut_in_ip (some 4040) (some initial_stats) = some XDP_PASS
    ∧ ∃ s2, stats_after frame_cut_in_ip (some 4040) (some initial_stats) = some s2
        ∧ increased_by_one initial_stats.total_packets s2.total_packets
        ∧ s2.tcp_packets = initial_stats.tcp_packets
        ∧ s2.passed_packets = initial_stats.passed_packets
        ∧ s2.dropped_packets = initial_stats.dropped_packets :=
  pass_truncated_before_ip_end frame_cut_in_ip (some 4040) initial_stats (Or.inr (by decide))

/-- C6, as the code has it: a frame with a full Ethernet header of ethertype
IPv4 and a full IPv4 header of protocol TCP that is too short for a 20-octet
TCP header at offset `14 + 4 * ihl` is passed; `total` and `tcp` increase by
exactly 1 (the TCP count is taken before the TCP header is measured), `passed`
and `dropped` are unchanged. -/
theorem pass_truncated_tcp (frame : List u8) (port : Option u16) (s : packet_stats)
    (heth : 14 ≤ frame.length ∧ is_ipv4 frame)
    (hip : 34 ≤ frame.length ∧ is_tcp frame)
    (hshort : frame.length < tcp_offset frame + 20) :
    verdict frame port (some s) = some XDP_PASS
    ∧ ∃ s2, stats_after frame port (some s) = some s2
        ∧ increased_by_one s.total_packets s2.total_packets
        ∧ increased_by_one s.tcp_packets s2.tcp_packets
        ∧ s2.passed_packets = s.passed_packets
        ∧ s2.dropped_packets = s.dropped_packets := by
  have h := run_short_tcp frame port s heth.2 hip.1 hip.2 hshort
  simp [verdict, stats_after, h, increased_by_one_mod]

/-- Instance of the amended C6 on a 40-octet frame cut inside the TCP header. -/
theorem pass_truncated_tcp_witness :
    verdict frame_cut_in_tcp (some 4040) (some initial_stats) = some XDP_PASS
    ∧ ∃ s2, stats_after frame_cut_in_tcp (some 4040) (some initial_stats) = some s2
        ∧ increased_by_one initial_stats.total_packets s2.total_packets
        ∧ increased_by_one initial_stats.tcp_packets s2.tcp_packets
        ∧ s2.passed_packets = initial_stats.passed_packets
        ∧ s2.dropped_packets = initial_stats.dropped_packets :=
  pass_truncated_tcp frame_cut_in_tcp (some 4040) initial_stats
    (by decide) (by decide) (by decide)

/-- C6 as stated fails: the 40-octet frame `frame_cut_in_tcp` has full Ethernet
and IPv4 headers (ethertype IPv4, protocol TCP, ihl 5) and is shorter than
`14 + 4 * 5 + 20 = 54`, yet classifying it from the all-zero record leaves
`tcp_packets = 1`, not 0. -/
theorem truncated_tcp_counts_as_tcp :
    ((14 ≤ frame_cut_in_tcp.length ∧ is_ipv4 frame_cut_in_tcp)
      ∧ (34 ≤ frame_cut_in_tcp.length ∧ is_tcp frame_cut_in_tcp)
      ∧ frame_cut_in_tcp.length < tcp_offset frame_cut_in_tcp + 20)
    ∧ verdict frame_cut_in_tcp (some 4040) (some initial_stats) = some XDP_PASS
    ∧ stats_after frame_cut_in_tcp (some 4040) (some initial_stats)
        = some { total_packets := 1, tcp_packets := 1, dropped_packets := 0, passed_packets := 0 }
    ∧ initial_stats.tcp_packets = 0 := by
  decide

/-- C7: the verdict is `XDP_ABORTED` exactly when the stats record cannot be
looked up; in that case the maps are left as they were and nothing is loaded
from the frame.  With the stats record present the verdict is `XDP_PASS` or
`XDP_DROP`, for every frame and every port configuration. -/
theorem aborted_iff_stats_missing (frame : List u8) (port : Option u16)
    (stats : Option packet_stats) :
    (verdict frame port stats = some XDP_ABORTED ↔ stats = none)
    ∧ invoke frame port none
        = some (XDP_ABORTED, { port_map := port, stats_map := none, loads := [] })
    ∧ ∀ s : packet_stats,
        verdict frame port (some s) = some XDP_PASS
          ∨ verdict frame port (some s) = some XDP_DROP := by
  have hall : ∀ s : packet_stats,
      verdict frame port (some s) = some XDP_PASS
        ∨ verdict frame port (some s) = some XDP_DROP := by
    intro s
    rcases run_cases frame port s with h | h | h | h | h | h | h | h | h <;>
      simp [verdict, h.1]
  refine ⟨?_, run_aborted frame port, hall⟩
  cases stats with
  | none => simp [verdict, run_aborted]
  | some s =>
    rcases hall s with h | h <;> simp [h]

/-- C8: every load from the frame lies inside the frame, for every frame, port
configuration and stats slot: no run ends in the out-of-range branch of a
load; each recorded load `(offset, size)` has `offset + size <= length`; the
ethertype is loaded only when `length >= 14`, the header-length nibble and the
protocol octet only when `length >= 34`, the TCP ports only when
`14 + 4 * ihl + 20 <= length`; and there are no other loads. -/
theorem loads_within_frame (frame : List u8) (port : Option u16)
    (stats : Option packet_stats) :
    verdict frame port stats ≠ none
    ∧ (∀ a ∈ loads_of frame port stats, a.1 + a.2 ≤ frame.length)
    ∧ ((12, 2) ∈ loads_of frame port stats → 14 ≤ frame.length)
    ∧ ((14, 1) ∈ loads_of frame port stats ∨ (23, 1) ∈ loads_of frame port stats
        → 34 ≤ frame.length)
    ∧ ((tcp_offset frame + 2, 2) ∈ loads_of frame port stats
        ∨ (tcp_offset frame, 2) ∈ loads_of frame port stats
        → tcp_offset frame + 20 ≤ frame.length)
    ∧ (∀ a ∈ loads_of frame port stats,
        a ∈ [(12, 2), (23, 1), (14, 1), (tcp_offset frame + 2, 2), (tcp_offset frame, 2)]) := by
  have hoff := tcp_offset_ge frame
  cases stats with
  | none => simp [verdict, loads_of, run_aborted]
  | some s =>
    rcases run_cases frame port s with h | h | h | h | h | h | h | h | h
    all_goals
      obtain ⟨h, hc⟩ := h
      simp [verdict, loads_of, h]
      try omega

/-! ## Sequences of frames -/

theorem classify_one_stats (s : packet_stats) (x : List u8 × Option u16)
    (r : xdp_action × State) (h : invoke x.1 x.2 (some s) = some r) (s2 : packet_stats)
    (h2 : r.2.stats_map = some s2) : classify_one s x = s2 := by
  simp [classify_one, stats_after, h, h2]

/-- Effect of one classification on a record whose counters are bounded by
`n`, with `n + 1` below `2^64`: the invariant moves from `n` to `n + 1`, the
count of rejected frames moves with the frame, and no counter decreases. -/
theorem classify_one_inv (s : packet_stats) (x : List u8 × Option u16) (n r : Nat)
    (hn : n + 1 < 2 ^ 64) (ht : s.total_packets = n) (htcp : s.tcp_packets ≤ n)
    (hpd : s.passed_packets + s.dropped_packets + r = n) :
    (classify_one s x).total_packets = n + 1
    ∧ (classify_one s x).tcp_packets ≤ n + 1
    ∧ (classify_one s x).passed_packets + (classify_one s x).dropped_packets
        + (r + if rejected_before_full_parse x.1 then 1 else 0) = n + 1
    ∧ counters_le s (classify_one s x) := by
  have hp : s.passed_packets + 1 < 2 ^ 64 := by omega
  have hd : s.dropped_packets + 1 < 2 ^ 64 := by omega
  have hc : s.tcp_packets + 1 < 2 ^ 64 := by omega
  have ht2 : s.total_packets + 1 < 2 ^ 64 := by omega
  have e1 := Nat.mod_eq_of_lt hp
  have e2 := Nat.mod_eq_of_lt hd
  have e3 := Nat.mod_eq_of_lt hc
  have e4 := Nat.mod_eq_of_lt ht2
  rcases run_cases x.1 x.2 s with h | h | h | h | h | h | h | h | h
  all_goals
    obtain ⟨h, hcond⟩ := h
    rw [classify_one_stats s x _ h _ rfl]
    simp only [e1, e2, e3, e4, counters_le]
    simp [rejected_before_full_parse, hcond]
    try first
      | omega
      | (split_ifs <;> omega)

/-- The invariant of `classify_one_inv` carried along a whole sequence. -/
theorem classify_all_inv (xs : List (List u8 × Option u16)) :
    ∀ (s : packet_stats) (n r : Nat), n + xs.length < 2 ^ 64 → s.total_packets = n →
      s.tcp_packets ≤ n → s.passed_packets + s.dropped_packets + r = n →
      (classify_all xs s).total_packets = n + xs.length
      ∧ (classify_all xs s).tcp_packets ≤ n + xs.length
      ∧ (classify_all xs s).passed_packets + (classify_all xs s).dropped_packets
          + (r + rejected_count xs) = n + xs.length := by
  induction xs with
  | nil =>
    intro s n r _ ht htcp hpd
    simp [classify_all, rejected_count, ht, htcp, hpd]
  | cons x xs ih =>
    intro s n r hn ht htcp hpd
    simp only [List.length_cons] at hn
    obtain ⟨h1, h2, h3, _⟩ := classify_one_inv s x n r (by omega) ht htcp hpd
    have h := ih (classify_one s x) (n + 1)
      (r + if rejected_before_full_parse x.1 then 1 else 0) (by omega) h1 h2 h3
    have hc : rejected_count (x :: xs)
        = (if rejected_before_full_parse x.1 then 1 else 0) + rejected_count xs := by
      unfold rejected_count
      by_cases hx : rejected_before_full_parse x.1 <;> simp [List.filter_cons, hx]
      omega
    have hf : classify_all (x :: xs) s = classify_all xs (classify_one s x) := by
      simp [classify_all]
    rw [hf, hc]
    simp only [List.length_cons]
    omega

theorem classify_all_snoc (xs : List (List u8 × Option u16)) (x : List u8 × Option u16)
    (s : packet_stats) :
    classify_all (xs ++ [x]) s = classify_one (classify_all xs s) x := by
  simp [classify_all]

/-- C9: starting from the zero-initialised stats record and classifying any
finite sequence of frames one after the other with the stats record present,
the port configuration being free to change between frames, and with fewer
than `2^64` frames (so that no counter reaches `2^64`): `total` equals the
number of frames classified, `passed + dropped` equals `total` minus the
number of frames rejected before a full parse, and no counter decreases from
one frame to the next. -/
theorem counters_along_sequence (xs : List (List u8 × Option u16))
    (hsize : xs.length < 2 ^ 64) :
    (classify_all xs initial_stats).total_packets = xs.length
    ∧ (classify_all xs initial_stats).passed_packets
        + (classify_all xs initial_stats).dropped_packets
        = (classify_all xs initial_stats).total_packets - rejected_count xs
    ∧ (classify_all xs initial_stats).passed_packets
        + (classify_all xs initial_stats).dropped_packets + rejected_count xs
        = (classify_all xs initial_stats).total_packets
    ∧ ∀ k, k < xs.length →
        counters_le (classify_all (xs.take k) initial_stats)
          (classify_all (xs.take (k + 1)) initial_stats) := by
  have hall := classify_all_inv xs initial_stats 0 0 (by omega) rfl (by simp [initial_stats])
    (by simp [initial_stats])
  obtain ⟨h1, _, h3⟩ := hall
  refine ⟨by omega, by omega, by omega, ?_⟩
  intro k hk
  have hlen : (xs.take k).length = k := by
    simp [List.length_take]; omega
  have hpre := classify_all_inv (xs.take k) initial_stats 0 0 (by omega) rfl
    (by simp [initial_stats]) (by simp [initial_stats])
  obtain ⟨p1, p2, p3⟩ := hpre
  have hstep := classify_one_inv (classify_all (xs.take k) initial_stats) (xs.get ⟨k, hk⟩)
    (0 + (xs.take k).length) (0 + rejected_count (xs.take k)) (by omega) p1 p2 p3
  have htake : xs.take (k + 1) = xs.take k ++ [xs.get ⟨k, hk⟩] := by
    rw [List.take_succ, List.getElem?_eq_getElem hk]
    rfl
  rw [htake, classify_all_snoc]
  exact hstep.2.2.2

/-- Instance of C9 on three frames: one cut inside the TCP header, one UDP
frame under an unset port, one TCP frame from the configured port. -/
theorem counters_along_sequence_witness :
    (classify_all [(frame_cut_in_tcp, some 4040), (frame_udp, none),
        (frame_4040_to_9999, some 4040)] initial_stats).total_packets = 3
    ∧ (classify_all [(frame_cut_in_tcp, some 4040), (frame_udp, none),
        (frame_4040_to_9999, some 4040)] initial_stats).passed_packets
      + (classify_all [(frame_cut_in_tcp, some 4040), (frame_udp, none),
        (frame_4040_to_9999, some 4040)] initial_stats).dropped_packets = 3 - 1 := by
  have h := counters_along_sequence [(frame_cut_in_tcp, some 4040), (frame_udp, none),
    (frame_4040_to_9999, some 4040)] (by decide)
  have hr : rejected_count [(frame_cut_in_tcp, some 4040), (frame_udp, none),
    (frame_4040_to_9999, some 4040)] = 1 := by decide
  rw [hr] at h
  exact ⟨h.1, by rw [h.2.1, h.1]; rfl⟩

/-! ## Command line of the control plane -/

theorem takes_value_iff (a : String) :
    takes_value a = true ↔ (a = "-i" ∨ a = "--interface" ∨ a = "-p" ∨ a = "--port") := by
  simp [takes_value]

theorem parse_interface (atoi : String → Int) (prog_name : Option String) (a v : String)
    (rest : List String) (opts : Options) (h : a = "-i" ∨ a = "--interface") :
    parse_arguments atoi prog_name (a :: v :: rest) opts
      = parse_arguments atoi prog_name rest { opts with interface := some v } := by
  simp [parse_arguments, h]

theorem parse_port_invalid (atoi : String → Int) (prog_name : Option String) (a v : String)
    (rest : List String) (opts : Options) (h : a = "-p" ∨ a = "--port")
    (hp : atoi v ≤ 0 ∨ atoi v > 65535) :
    parse_arguments atoi prog_name (a :: v :: rest) opts
      = .returned 1 [.stderr_invalid_port (atoi v)] := by
  rcases h with h | h <;> subst h <;> simp [parse_arguments, hp]

theorem parse_port_valid (atoi : String → Int) (prog_name : Option String) (a v : String)
    (rest : List String) (opts : Options) (h : a = "-p" ∨ a = "--port")
    (hp : ¬ (atoi v ≤ 0 ∨ atoi v > 65535)) :
    parse_arguments atoi prog_name (a :: v :: rest) opts
      = parse_arguments atoi prog_name rest { opts with port := atoi v } := by
  rcases h with h | h <;> subst h <;> simp [parse_arguments, hp]

theorem parse_dangling (atoi : String → Int) (prog_name : Option String) (a : String)
    (opts : Options) (h : a = "-i" ∨ a = "--interface" ∨ a = "-p" ∨ a = "--port") :
    parse_arguments atoi prog_name [a] opts
      = .returned 1 [.stderr_requires_argument a, .print_usage prog_name] := by
  rcases h with h | h | h | h <;> subst h <;> simp [parse_arguments]

theorem parse_stats (atoi : String → Int) (prog_name : Option String) (a : String)
    (rest : List String) (opts : Options) (h : a = "-s" ∨ a = "--stats") :
    parse_arguments atoi prog_name (a :: rest) opts
      = parse_arguments atoi prog_name rest { opts with show_stats := true } := by
  rcases h with h | h <;> subst h <;> cases rest <;> simp [parse_arguments]

theorem parse_help (atoi : String → Int) (prog_name : Option String) (a : String)
    (rest : List String) (opts : Options) (h : a = "-h" ∨ a = "--help") :
    parse_arguments atoi prog_name (a :: rest) opts
      = .returned 0 [.print_usage prog_name] := by
  rcases h with h | h <;> subst h <;> cases rest <;> simp [parse_arguments]

theorem parse_unknown (atoi : String → Int) (prog_name : Option String) (a : String)
    (rest : List String) (opts : Options)
    (hv : ¬ (a = "-i" ∨ a = "--interface" ∨ a = "-p" ∨ a = "--port"))
    (hs : ¬ (a = "-s" ∨ a = "--stats")) (hh : ¬ (a = "-h" ∨ a = "--help")) :
    parse_arguments atoi prog_name (a :: rest) opts
      = .returned 1 [.stderr_unknown_option a, .print_usage prog_name] := by
  simp only [not_or] at hv hs hh
  cases rest <;> simp [parse_arguments, hv, hs, hh]

/-- The argument loop of `main` against the command line read as options: it
returns at the first option that ends the scan, with status 0 for a help
option and 1 otherwise, and otherwise runs to the end of `argv`. -/
theorem parse_arguments_scan (atoi : String → Int) (prog_name : Option String)
    (args : List String) :
    ∀ opts : Options,
      (∀ t, (tokens args).find? (ends_scan atoi) = some t →
        ∃ ev, parse_arguments atoi prog_name args opts
            = .returned (if asks_help t then 0 else 1) ev
          ∧ (∀ e ∈ ev, is_bpf_action e = false)
          ∧ (invalid_port_argument atoi t = true ∨ Event.print_usage prog_name ∈ ev))
      ∧ ((tokens args).find? (ends_scan atoi) = none →
        ∃ opts2, parse_arguments atoi prog_name args opts = .completed opts2
          ∧ ((∀ t ∈ tokens args, supplies_interface t = false)
              → opts2.interface = opts.interface)) := by
  induction args using tokens.induct with
  | case1 =>
    intro opts
    simp [tokens, parse_arguments]
  | case2 a hv v rest2 ih =>
    intro opts
    have htok : tokens (a :: v :: rest2) = Token.valued a v :: tokens rest2 := by
      simp [tokens, hv]
    rw [htok]
    have hcls := (takes_value_iff a).1 hv
    by_cases hi : a = "-i" ∨ a = "--interface"
    · have hes : ends_scan atoi (Token.valued a v) = false := by
        rcases hi with h | h <;> subst h <;> simp [ends_scan, invalid_port_argument]
      have hsi : supplies_interface (Token.valued a v) = true := by
        simp [supplies_interface, hi]
      have hfind : (Token.valued a v :: tokens rest2).find? (ends_scan atoi)
          = (tokens rest2).find? (ends_scan atoi) := by
        rw [List.find?_cons, hes]
      rw [hfind, parse_interface atoi prog_name a v rest2 opts hi]
      have h2 := ih { opts with interface := some v }
      refine ⟨h2.1, fun hnone => ?_⟩
      obtain ⟨o2, e, _⟩ := h2.2 hnone
      refine ⟨o2, e, fun hall => ?_⟩
      have := hall _ (List.mem_cons_self _ _)
      rw [hsi] at this
      exact absurd this (by decide)
    · have hport : a = "-p" ∨ a = "--port" := by
        rcases hcls with h | h | h | h
        · exact absurd (Or.inl h) hi
        · exact absurd (Or.inr h) hi
        · exact Or.inl h
        · exact Or.inr h
      have hsi : supplies_interface (Token.valued a v) = false := by
        simp only [not_or] at hi
        simp [supplies_interface, hi]
      by_cases hp : atoi v ≤ 0 ∨ atoi v > 65535
      · have hinv : invalid_port_argument atoi (Token.valued a v) = true := by
          simp [invalid_port_argument, hport, hp]
        have hes : ends_scan atoi (Token.valued a v) = true := by
          simp [ends_scan, hinv]
        have hfind : (Token.valued a v :: tokens rest2).find? (ends_scan atoi)
            = some (Token.valued a v) := by
          rw [List.find?_cons, hes]
        rw [hfind, parse_port_invalid atoi prog_name a v rest2 opts hport hp]
        refine ⟨fun t ht => ?_, fun hnone => by simp at hnone⟩
        have ht2 : t = Token.valued a v := by
          simpa using ht.symm
        subst ht2
        exact ⟨[.stderr_invalid_port (atoi v)], by simp [asks_help], by simp [is_bpf_action],
          Or.inl hinv⟩
      · have hinv : invalid_port_argument atoi (Token.valued a v) = false := by
          simp only [not_or] at hp
          simp [invalid_port_argument, hp]
        have hes : ends_scan atoi (Token.valued a v) = false := by
          simp [ends_scan, hinv]
        have hfind : (Token.valued a v :: tokens rest2).find? (ends_scan atoi)
            = (tokens rest2).find? (ends_scan atoi) := by
          rw [List.find?_cons, hes]
        rw [hfind, parse_port_valid atoi prog_name a v rest2 opts hport hp]
        have h2 := ih { opts with port := atoi v }
        refine ⟨h2.1, fun hnone => ?_⟩
        obtain ⟨o2, e, hint⟩ := h2.2 hnone
        refine ⟨o2, e, fun hall => ?_⟩
        exact hint (fun t ht => hall t (List.mem_cons_of_mem _ ht))
  | case3 a hv =>
    intro opts
    have htok : tokens [a] = [Token.dangling a] := by
      simp [tokens, hv]
    rw [htok, parse_dangling atoi prog_name a opts ((takes_value_iff a).1 hv)]
    refine ⟨fun t ht => ?_, fun hnone => by simp [ends_scan] at hnone⟩
    have ht2 : t = Token.dangling a := by
      simpa [ends_scan] using ht.symm
    subst ht2
    exact ⟨[.stderr_requires_argument a, .print_usage prog_name], by simp [asks_help],
      by simp [is_bpf_action], Or.inr (by simp)⟩
  | case4 a rest hv ih =>
    intro opts
    have htok : tokens (a :: rest) = Token.flag a :: tokens rest := by
      cases rest <;> simp [tokens, hv]
    rw [htok]
    have hn : ¬ (a = "-i" ∨ a = "--interface" ∨ a = "-p" ∨ a = "--port") := by
      rw [← takes_value_iff]; exact hv
    by_cases hs : a = "-s" ∨ a = "--stats"
    · have hes : ends_scan atoi (Token.flag a) = false := by
        simp [ends_scan, hs]
      have hfind : (Token.flag a :: tokens rest).find? (ends_scan atoi)
          = (tokens rest).find? (ends_scan atoi) := by
        rw [List.find?_cons, hes]
      rw [hfind, parse_stats atoi prog_name a rest opts hs]
      have h2 := ih { opts with show_stats := true }
      refine ⟨h2.1, fun hnone => ?_⟩
      obtain ⟨o2, e, hint⟩ := h2.2 hnone
      refine ⟨o2, e, fun hall => ?_⟩
      exact hint (fun t ht => hall t (List.mem_cons_of_mem _ ht))
    · have hes : ends_scan atoi (Token.flag a) = true := by
        simp only [not_or] at hs
        simp [ends_scan, hs]
      have hfind : (Token.flag a :: tokens rest).find? (ends_scan atoi)
          = some (Token.flag a) := by
        rw [List.find?_cons, hes]
      rw [hfind]
      refine ⟨fun t ht => ?_, fun hnone => by simp at hnone⟩
      have ht2 : t = Token.flag a := by
        simpa using ht.symm
      subst ht2
      by_cases hh : a = "-h" ∨ a = "--help"
      · rw [parse_help atoi prog_name a rest opts hh]
        exact ⟨[.print_usage prog_name], by simp [asks_help, hh], by simp [is_bpf_action],
          Or.inr (by simp)⟩
      · rw [parse_unknown atoi prog_name a rest opts hn hs hh]
        have hah : asks_help (Token.flag a) = false := by
          simp only [not_or] at hh
          simp [asks_help, hh]
        exact ⟨[.stderr_unknown_option a, .print_usage prog_name], by simp [hah],
          by simp [is_bpf_action], Or.inr (by simp)⟩

theorem invalid_port_ends_scan (atoi : String → Int) (t : Token)
    (h : invalid_port_argument atoi t = true) : ends_scan atoi t = true := by
  cases t with
  | flag name => simp [invalid_port_argument] at h
  | valued name value => simpa [ends_scan] using h
  | dangling name => simp [ends_scan]

/-- C10, as the code has it: for every command line in which the argument of a
`-p`/`--port` option parses to an integer `<= 0` or `> 65535`, and for every
command line that supplies no `-i`/`--interface` option, `main` returns
without loading a BPF object, writing a map or attaching the hook; its exit
status is 1, except that it is 0 when a help option comes before every other
option that ends the scan; and the usage message is printed on every such
command line except those on which the scan stops at the invalid port itself. -/
theorem main_rejects_command_line (env : Env) (argv : List String)
    (h : (∃ t ∈ tokens argv.tail, invalid_port_argument env.atoi t = true)
      ∨ (∀ t ∈ tokens argv.tail, supplies_interface t = false)) :
    (∀ e ∈ (main env argv).2, is_bpf_action e = false)
    ∧ (main env argv).1 = (if help_first env.atoi argv.tail then 0 else 1)
    ∧ (stops_at_invalid_port env.atoi argv.tail = false
        → Event.print_usage argv.head? ∈ (main env argv).2) := by
  have hscan := parse_arguments_scan env.atoi argv.head? argv.tail
    { interface := none, port := 4040, show_stats := false }
  cases hfind : (tokens argv.tail).find? (ends_scan env.atoi) with
  | none =>
    have hno : ∀ t ∈ tokens argv.tail, ends_scan env.atoi t = false := by
      intro t ht
      have := List.find?_eq_none.1 hfind t ht
      simpa using this
    have hi : ∀ t ∈ tokens argv.tail, supplies_interface t = false := by
      rcases h with ⟨t, ht, hinv⟩ | h
      · have h1 := invalid_port_ends_scan env.atoi t hinv
        rw [hno t ht] at h1
        exact absurd h1 (by decide)
      · exact h
    obtain ⟨o2, hparse, hint⟩ := hscan.2 hfind
    have ho : o2.interface = none := hint hi
    simp [main, hparse, ho, help_first, hfind, is_bpf_action]
  | some t =>
    obtain ⟨ev, hparse, hbpf, husage⟩ := hscan.1 t hfind
    refine ⟨?_, ?_, ?_⟩
    · simpa [main, hparse] using hbpf
    · simp [main, hparse, help_first, hfind]
    · intro hstop
      have hninv : invalid_port_argument env.atoi t = false := by
        simpa [stops_at_invalid_port, hfind] using hstop
      rcases husage with hu | hu
      · rw [hninv] at hu
        exact absurd hu (by decide)
      · simpa [main, hparse] using hu

/-- Instance of the amended C10 on a command line in which an unknown option
comes before an invalid port: status 1 and the usage message. -/
theorem main_rejects_command_line_witness :
    (main env_ok ["packet_filter", "-x", "-p", "0"]).1 = 1
    ∧ Event.print_usage (some "packet_filter")
        ∈ (main env_ok ["packet_filter", "-x", "-p", "0"]).2 :=
  have h := main_rejects_command_line env_ok ["packet_filter", "-x", "-p", "0"]
    (Or.inl (by decide))
  ⟨h.2.1.trans (by decide), h.2.2 (by decide)⟩

/-- C10 as stated fails.  With a valid interface and port 70000 `main` exits
with status 1 after the line "Invalid port number" alone: no usage message.
With `--help` and no interface it exits with status 0. -/
theorem invalid_port_prints_no_usage :
    main env_ok ["packet_filter", "-i", "eth0", "-p", "70000"]
        = (1, [Event.stderr_invalid_port 70000])
    ∧ Event.print_usage (some "packet_filter")
        ∉ (main env_ok ["packet_filter", "-i", "eth0", "-p", "70000"]).2
    ∧ main env_ok ["packet_filter", "--help"]
        = (0, [Event.print_usage (some "packet_filter")]) := by
  decide

end PacketFilter
